import Mathlib

/-!
# Verification of the job-scraper core (`src/job_scraper.py`)

This file gives a shallow embedding of `JobDescriptionScraper` from
`src/job_scraper.py` and proves/refutes the frozen claims about it.

Modelling conventions:
* Python strings are Lean `String`s (internally `List Char`); character
  classes (`\s`, `\w`, `str.strip`, `str.lower`) are modelled over their
  ASCII meaning, which covers all text the claims quantify over.
* BeautifulSoup is an external library; a parsed page is modelled as an
  oracle (`Soup`) answering exactly the queries the source performs:
  `select_one` (stripped text of the first match), `select` (stripped texts
  of all matches), `find('title')`, and the parent/next-sibling walk used by
  the section fallback.
* The `requests` session is an oracle `net : Nat → Except String Soup`
  giving, per attempt, either the fetched page or the message of the
  exception raised by the fetch.  Network requests and `time.sleep` calls
  are recorded in an event trace.
* Python `re` is modelled by a small executable regex engine covering the
  constructs appearing in the source's patterns (literals, `.`, classes,
  `\b`, `$`, greedy/lazy `*` `+` `?`, one capture group, IGNORECASE);
  `re.sub` is a single left-to-right pass replacing leftmost non-overlapping
  matches, as in CPython.  None of the source's patterns can match the
  empty string.
-/

set_option maxRecDepth 200000
set_option maxHeartbeats 4000000
set_option linter.unnecessarySeqFocus false

namespace JobScraper

/-! ## Python character/string primitives (ASCII semantics) -/

/-- Python whitespace (`str.strip`, regex `\s`), ASCII part. -/
def pySpace (c : Char) : Bool :=
  c = ' ' || c = '\t' || c = '\n' || c = '\r' || c = '\x0b' || c = '\x0c'

/-- Regex word character `\w` (ASCII part). -/
def wordChar (c : Char) : Bool :=
  ('a' ≤ c && c ≤ 'z') || ('A' ≤ c && c ≤ 'Z') || ('0' ≤ c && c ≤ '9') || c = '_'

def asciiAlpha (c : Char) : Bool :=
  ('a' ≤ c && c ≤ 'z') || ('A' ≤ c && c ≤ 'Z')

/-- Characters allowed in a URL scheme by `urllib.parse`. -/
def schemeChar (c : Char) : Bool :=
  asciiAlpha c || ('0' ≤ c && c ≤ '9') || c = '+' || c = '-' || c = '.'

/-- Drop trailing characters satisfying `pySpace`. -/
def dropTrailing : List Char → List Char
  | [] => []
  | c :: cs =>
    match dropTrailing cs with
    | [] => if pySpace c then [] else [c]
    | d :: ds => c :: d :: ds

/-- Python `str.strip()` on character lists. -/
def pyStripL (l : List Char) : List Char :=
  dropTrailing (l.dropWhile pySpace)

/-- Python `str.strip()`. -/
def pyStrip (s : String) : String :=
  String.mk (pyStripL s.data)

/-- Python `str.lower()` (ASCII case mapping). -/
def pyLower (s : String) : String :=
  String.mk (s.data.map Char.toLower)

/-- Substring test on character lists (Python `needle in hay`). -/
def isSubstrL (n : List Char) : List Char → Bool
  | [] => n.isEmpty
  | c :: cs => n.isPrefixOf (c :: cs) || isSubstrL n cs

/-- Python `needle in hay`. -/
def isSubstr (n hay : String) : Bool :=
  isSubstrL n.data hay.data

/-- Index of the first occurrence of `sep` in the list, if any. -/
def findSubIdx (sep : List Char) : List Char → Option Nat
  | [] => if sep.isEmpty then some 0 else none
  | c :: cs =>
    if sep.isPrefixOf (c :: cs) then some 0
    else (findSubIdx sep cs).map (· + 1)

/-- Fuelled worker for Python `str.split(sep)` with a non-empty separator. -/
def pySplitGo (sep : List Char) : Nat → List Char → List (List Char)
  | 0, l => [l]
  | fuel + 1, l =>
    match findSubIdx sep l with
    | none => [l]
    | some i => l.take i :: pySplitGo sep fuel (l.drop (i + sep.length))

/-- Python `s.startswith(pre)` (code-point prefix test). -/
def pyStartswith (pre s : String) : Bool :=
  pre.data.isPrefixOf s.data

/-- Python `s.split(sep)` for non-empty `sep`. -/
def pySplit (sep s : String) : List String :=
  (pySplitGo sep.data (s.data.length + 1) s.data).map String.mk

/-! ## Executable regex engine (the fragment used by `job_scraper.py`) -/

/-- Single-character matchers (quantifier bodies and atoms). -/
inductive RElem where
  | lit (c : Char)
  | cls (ranges : List (Char × Char)) (ws : Bool)  -- ranges, plus `\s` when `ws`
  | dot
deriving DecidableEq

/-- Does `c` fall in one of the ranges? -/
def inRanges (ranges : List (Char × Char)) (c : Char) : Bool :=
  ranges.any fun r => r.1 ≤ c && c ≤ r.2

/-- Does the single-character matcher accept `c` (with IGNORECASE flag `ci`)? -/
def relemMatch (ci : Bool) : RElem → Char → Bool
  | .lit x, c => if ci then x.toLower = c.toLower else x = c
  | .cls rs w, c =>
    inRanges rs c || (w && pySpace c)
      || (ci && (inRanges rs c.toLower || inRanges rs c.toUpper))
  | .dot, c => c ≠ '\n'

/-- Regexes of the shape appearing in the source: all quantifiers have
single-character bodies (which is the case for every pattern in the file). -/
inductive RE where
  | eps
  | elem (e : RElem)
  | bnd                -- `\b`
  | eos                -- `$`
  | cat (a b : RE)
  | alt (a b : RE)
  | starG (e : RElem)  -- greedy `*`
  | starL (e : RElem)  -- lazy `*?`
  | plusG (e : RElem)  -- greedy `+`
  | plusL (e : RElem)  -- lazy `+?`
  | opt (e : RElem)    -- greedy `?`
  | grp (a : RE)       -- capture group 1
deriving DecidableEq

/-- Is there a `\b` boundary before `s`, given the previous character? -/
def atBoundary (prev : Option Char) (s : List Char) : Bool :=
  (match prev with | none => false | some c => wordChar c)
    ≠ (match s with | [] => false | c :: _ => wordChar c)

/-- One match outcome: consumed characters, remaining input, group-1 capture. -/
abbrev MOut := List Char × List Char × Option (List Char)

/-- The character before the remaining input after consuming `consumed`. -/
def newPrev (prev : Option Char) (consumed : List Char) : Option Char :=
  match consumed.getLast? with
  | some c => some c
  | none => prev

/-- All ways to match `r` at the start of `s`, in backtracking-preference
order (the head is the alternative CPython's engine commits to). -/
def reMatch (ci : Bool) : RE → Option Char → List Char → List MOut
  | .eps, _, s => [([], s, none)]
  | .elem e, _, s =>
    match s with
    | [] => []
    | c :: cs => if relemMatch ci e c then [([c], cs, none)] else []
  | .bnd, prev, s => if atBoundary prev s then [([], s, none)] else []
  | .eos, _, s => if s = [] || s = ['\n'] then [([], s, none)] else []
  | .cat a b, prev, s =>
    (reMatch ci a prev s).flatMap fun o =>
      (reMatch ci b (newPrev prev o.1) o.2.1).map fun p =>
        (o.1 ++ p.1, p.2.1, Option.orElse o.2.2 (fun _ => p.2.2))
  | .alt a b, prev, s => reMatch ci a prev s ++ reMatch ci b prev s
  | .starG e, _, s =>
    let n := (s.takeWhile (relemMatch ci e)).length
    (List.range (n + 1)).map fun j => (s.take (n - j), s.drop (n - j), none)
  | .starL e, _, s =>
    let n := (s.takeWhile (relemMatch ci e)).length
    (List.range (n + 1)).map fun k => (s.take k, s.drop k, none)
  | .plusG e, _, s =>
    let n := (s.takeWhile (relemMatch ci e)).length
    (List.range n).map fun j => (s.take (n - j), s.drop (n - j), none)
  | .plusL e, _, s =>
    let n := (s.takeWhile (relemMatch ci e)).length
    (List.range n).map fun k => (s.take (k + 1), s.drop (k + 1), none)
  | .opt e, _, s =>
    match s with
    | [] => [([], [], none)]
    | c :: cs => if relemMatch ci e c then [([c], cs, none), ([], c :: cs, none)]
                 else [([], c :: cs, none)]
  | .grp a, prev, s => (reMatch ci a prev s).map fun o => (o.1, o.2.1, some o.1)

/-- The match CPython commits to at this position, if any. -/
def tryMatchAt (ci : Bool) (p : RE) (prev : Option Char) (s : List Char) : Option MOut :=
  (reMatch ci p prev s).head?

/-- Fuelled worker for `re.sub(p, r, ·)`: scan left to right, replace the
leftmost non-overlapping matches.  (No pattern in the source matches the
empty string, and matches consume at least one character, so the fuel
`s.length` never runs out on real inputs.) -/
def subAllGo (ci : Bool) (p : RE) (r : List Char) :
    Nat → Option Char → List Char → List Char
  | 0, _, s => s
  | _ + 1, _, [] => []
  | fuel + 1, prev, c :: cs =>
    match tryMatchAt ci p prev (c :: cs) with
    | some (d :: ds, rest, _) => r ++ subAllGo ci p r fuel (some (ds.getLastD d)) rest
    | _ => c :: subAllGo ci p r fuel (some c) cs

/-- `re.sub(p, r, s)` (with flag `ci` for `re.IGNORECASE`). -/
def subAll (ci : Bool) (p : RE) (r : List Char) (s : List Char) : List Char :=
  subAllGo ci p r s.length none s

/-- Fuelled scan: does `p` match at some position of `s`? -/
def existsMatchGo (ci : Bool) (p : RE) : Nat → Option Char → List Char → Bool
  | 0, _, _ => false
  | _ + 1, _, [] => false
  | fuel + 1, prev, c :: cs =>
    (tryMatchAt ci p prev (c :: cs)).isSome || existsMatchGo ci p fuel (some c) cs

/-- Does `p` match somewhere in `s`? -/
def existsMatch (ci : Bool) (p : RE) (s : List Char) : Bool :=
  existsMatchGo ci p s.length none s

/-- Fuelled worker for `re.search`: the group-1 capture of the leftmost match. -/
def searchGo (ci : Bool) (p : RE) : Nat → Option Char → List Char → Option MOut
  | 0, _, _ => none
  | _ + 1, prev, [] => tryMatchAt ci p prev []
  | fuel + 1, prev, c :: cs =>
    match tryMatchAt ci p prev (c :: cs) with
    | some o => some o
    | none => searchGo ci p fuel (some c) cs

/-- `re.search(p, s)`, returning the match outcome. -/
def reSearch (ci : Bool) (p : RE) (s : List Char) : Option MOut :=
  searchGo ci p (s.length + 1) none s

/-- `re.match(p, s)`: anchored at position 0. -/
def reMatch0 (ci : Bool) (p : RE) (s : List Char) : Option MOut :=
  tryMatchAt ci p none s

/-! ### Pattern constructors -/

def rchar (c : Char) : RE := .elem (.lit c)

/-- Literal string as a regex. -/
def rstr (s : String) : RE := s.data.foldr (fun c r => RE.cat (rchar c) r) RE.eps

def rcat (l : List RE) : RE := l.foldr RE.cat RE.eps

/-- The class `\s` (ASCII). -/
def wsElem : RElem := .cls [] true

/-- The class `\d`. -/
def digitElem : RElem := .cls [('0', '9')] false

/-- The class `[\d,]`. -/
def digitCommaElem : RElem := .cls [('0', '9'), (',', ',')] false

/-- The class `[A-Z]`. -/
def upperElem : RElem := .cls [('A', 'Z')] false

/-- The class `[a-zA-Z0-9\s&]`. -/
def companyBodyElem : RElem :=
  .cls [('a', 'z'), ('A', 'Z'), ('0', '9'), ('&', '&')] true

/-- The class `[a-zA-Z0-9&]`. -/
def companyWordElem : RElem := .cls [('a', 'z'), ('A', 'Z'), ('0', '9'), ('&', '&')] false

/-- The pattern `\s+`. -/
def wsPlus : RE := .plusG wsElem

/-- A word wrapped in `\b ... \b`. -/
def bWord (s : String) : RE := rcat [.bnd, rstr s, .bnd]

/-- String-level `re.sub` with empty replacement. -/
def subStr (ci : Bool) (p : RE) (s : String) : String :=
  String.mk (subAll ci p [] s.data)

/-- String-level whitespace collapse: `re.sub(r'\s+', ' ', s)`. -/
def collapseWs (s : String) : String :=
  String.mk (subAll false wsPlus [' '] s.data)

/-- Apply a list of patterns by `re.sub(p, '', ·)` in order. -/
def subPatterns (ci : Bool) (ps : List RE) (s : String) : String :=
  ps.foldl (fun acc p => subStr ci p acc) s

/-! ## Data model -/

/-- A Python tuple as returned by the scraper: the source's extraction-failure
branches return 3-tuples although the function is annotated
`Tuple[bool, str, str, str]`, so both arities must be representable. -/
inductive PyTuple where
  | mk3 (success : Bool) (second third : String)
  | mk4 (success : Bool) (second third fourth : String)
deriving DecidableEq

/-- `result[0]` — the success flag. -/
def PyTuple.success : PyTuple → Bool
  | .mk3 b _ _ => b
  | .mk4 b _ _ _ => b

/-- The second component (the title slot). -/
def PyTuple.title : PyTuple → String
  | .mk3 _ t _ => t
  | .mk4 _ t _ _ => t

/-- The third component (the description slot). -/
def PyTuple.third : PyTuple → String
  | .mk3 _ _ d => d
  | .mk4 _ _ d _ => d

/-- The last component — on a failure tuple this is where the error message
sits (the third slot of a 3-tuple, the fourth slot of a 4-tuple). -/
def PyTuple.errField : PyTuple → String
  | .mk3 _ _ d => d
  | .mk4 _ _ _ e => e

/-- A parsed page, as an oracle answering the BeautifulSoup queries the
source performs.  All returned texts are `get_text(strip=True)` results. -/
structure Soup where
  /-- `soup.select_one(sel)`: text of the first match, `none` if no element. -/
  selectOne : String → Option String
  /-- `soup.select(sel)`: texts of all matches. -/
  selectAll : String → List String
  /-- `soup.find('title')`: text of the `<title>` tag. -/
  pageTitle : Option String
  /-- `soup.find_all(text=re.compile(ind, re.I))`, keeping only nodes with a
  parent: for each such node, its parent's `find_next_siblings()` as
  (tag name, stripped text) pairs. -/
  findParentSiblings : String → List (List (String × String))

/-- The loop shape `for sel in sels: e = soup.select_one(sel); if e:
acc = text(e); if cond acc: break` — returns the final value of `acc`. -/
def scanSelAssign (get : String → Option String) (cond : String → Bool) :
    List String → String → String
  | [], acc => acc
  | sel :: rest, acc =>
    match get sel with
    | none => scanSelAssign get cond rest acc
    | some t => if cond t then t else scanSelAssign get cond rest t

/-! ## The LinkedIn extractor (`_scrape_linkedin`) -/

def linkedinTitleSelectors : List String :=
  ["h1[class*=\"job-title\"]", "h1[class*=\"title\"]", ".job-title", ".title",
   "[data-testid=\"job-title\"]", "[class*=\"job-title\"]", "h1[class*=\"text-heading\"]",
   "h1", "h2", "[class*=\"title\"]", "[class*=\"heading\"]",
   "[data-testid=\"job-details-jobs-unified-top-card-job-title\"]",
   "[class*=\"jobs-unified-top-card__job-title\"]",
   "[class*=\"jobs-unified-top-card__title\"]", "h1:first-of-type", "h2:first-of-type"]

def linkedinMainDescSelectors : List String :=
  ["[class*=\"jobs-description__content\"]", "[class*=\"jobs-box__html-content\"]",
   "[class*=\"jobs-description-content__text\"]", "[class*=\"job-description__content\"]",
   "[class*=\"description__text\"]", ".show-more-less-html",
   "[data-testid=\"job-description\"]",
   "[data-testid=\"job-details-jobs-unified-top-card-job-description\"]"]

def uiIndicators : List String :=
  ["apply", "join", "sign in", "first name", "last name", "email", "password",
   "agree & join", "continue", "security verification", "already on linkedin",
   "new to linkedin", "remove photo", "forgot password", "show", "hide"]

def jobIndicators : List String :=
  ["requirements", "qualifications", "responsibilities", "about", "role", "position",
   "experience", "skills", "duties", "expectations", "candidate", "applicant",
   "job description", "what you will do", "what you\x27ll do", "key responsibilities",
   "essential functions", "opportunity", "mission", "company", "team"]

def sectionIndicators : List String :=
  ["about the job", "about us", "about the company", "what\x27s the opportunity",
   "what will i be doing", "what skills do i need", "requirements", "qualifications"]

def linkedinCompanySelectors : List String :=
  ["[data-testid=\"job-details-jobs-unified-top-card-company-name\"]",
   "[class*=\"jobs-unified-top-card__company-name\"]", "[class*=\"company-name\"]",
   "[class*=\"employer\"]", "[class*=\"organization\"]", "[class*=\"company\"]",
   ".company", ".employer", ".organization"]

/-- Title phase of `_scrape_linkedin` (selector loop plus page-title fallback). -/
def linkedinTitle (soup : Soup) : String :=
  let title := scanSelAssign soup.selectOne
    (fun t => t ≠ "" && 3 < t.length && t.length < 200) linkedinTitleSelectors ""
  if title = "" || title.length < 3 then
    match soup.pageTitle with
    | none => title
    | some tt =>
      if isSubstr " at " tt then pyStrip ((pySplit " at " tt).headD "")
      else if isSubstr " | " tt then pyStrip ((pySplit " | " tt).headD "")
      else if isSubstr " - " tt then pyStrip ((pySplit " - " tt).headD "")
      else title
  else title

/-- One candidate text in the main-selector description loop. -/
def linkedinDescStep (description t : String) : String :=
  if t ≠ "" && 200 < t.length then
    let hasUi := uiIndicators.any fun i => isSubstr i (pyLower t)
    let hasJob := jobIndicators.any fun i => isSubstr i (pyLower t)
    if hasJob && !hasUi && description.length < t.length then t
    else if description = "" && 500 < t.length then t
    else description
  else description

/-- Main-selector description phase: both nested loops run to completion. -/
def linkedinMainDesc (soup : Soup) : String :=
  linkedinMainDescSelectors.foldl
    (fun desc sel => (soup.selectAll sel).foldl linkedinDescStep desc) ""

def siblingTags : List String := ["p", "div", "li", "ul", "ol"]

/-- Collect sibling texts (tag in `siblingTags`, length > 20), stopping once
more than 10 parts are collected. -/
def collectParts : List (String × String) → List String → List String
  | [], acc => acc.reverse
  | (tag, txt) :: rest, acc =>
    if tag ∈ siblingTags then
      let acc' := if txt ≠ "" && 20 < txt.length then txt :: acc else acc
      if 10 < acc'.length then acc'.reverse else collectParts rest acc'
    else collectParts rest acc

/-- Inner element loop of the section fallback; the `break` on a >500-char
join leaves this loop only. -/
def sectionElemLoop : List (List (String × String)) → String → String
  | [], desc => desc
  | sibs :: rest, desc =>
    let parts := collectParts sibs []
    if parts ≠ [] then
      let desc' := String.intercalate "\n" parts
      if 500 < desc'.length then desc' else sectionElemLoop rest desc'
    else sectionElemLoop rest desc

/-- Section-indicator fallback (runs when the main phase found < 500 chars);
the outer indicator loop always runs over all indicators. -/
def linkedinSectionDesc (soup : Soup) (desc : String) : String :=
  if desc = "" || desc.length < 500 then
    sectionIndicators.foldl (fun d ind => sectionElemLoop (soup.findParentSiblings ind) d) desc
  else desc

/-- The `unwanted_patterns` list of `_scrape_linkedin`, in source order. -/
def linkedinUnwantedPatterns : List RE :=
  [bWord "cookie", bWord "privacy policy", bWord "terms of service",
   rcat [rchar '©', .starL .dot, rstr "all rights reserved"],
   bWord "powered by", bWord "loading...", bWord "pay found in job post",
   bWord "retrieved from the description",
   rcat [rstr "base pay range", .starG wsElem, rchar '$', .plusG digitCommaElem,
         .opt (.lit '.'), .starG digitElem, .starG wsElem, rchar '-', .starG wsElem,
         rchar '$', .plusG digitCommaElem, .opt (.lit '.'), .starG digitElem,
         .starG wsElem, rstr "yr"],
   rcat [rstr "pay range", .starG wsElem, rchar '$', .plusG digitCommaElem,
         .opt (.lit '.'), .starG digitElem, .starG wsElem, rchar '-', .starG wsElem,
         rchar '$', .plusG digitCommaElem, .opt (.lit '.'), .starG digitElem,
         .starG wsElem, rstr "yr"],
   bWord "apply", rstr "join or sign in", rstr "first name", rstr "last name",
   rstr "email", rstr "password", rstr "agree & join", rstr "continue",
   rstr "security verification", rstr "already on linkedin", rstr "new to linkedin",
   rstr "remove photo", rstr "forgot password", rstr "use ai to assess",
   rstr "am i a good fit", rstr "tailor my resume", rstr "sign in to access",
   rstr "welcome back", rstr "not you?",
   rcat [rstr "by clicking", .starL .dot, rstr "policy"],
   bWord "or", rstr "you may also apply"]

/-- Description cleanup of `_scrape_linkedin` (lines 196-215): pattern
removal, then whitespace collapse, then strip — only on a non-empty text. -/
def linkedinCleanupDesc (d : String) : String :=
  if d ≠ "" then pyStrip (collapseWs (subPatterns true linkedinUnwantedPatterns d))
  else d

/-- The full description pipeline of `_scrape_linkedin`. -/
def linkedinDesc (soup : Soup) : String :=
  linkedinCleanupDesc (linkedinSectionDesc soup (linkedinMainDesc soup))

/-- Page-title reparse fallback for the company name (lines 240-256):
`"Company hiring Title"`, then `"Title - Company"`, then `"Title at Company"`. -/
def linkedinCompanyFromTitle (soup : Soup) (company : String) : String :=
  if company = "" || pyStrip company = "" then
    match soup.pageTitle with
    | none => company
    | some tt =>
      if isSubstr " hiring " tt then pyStrip ((pySplit " hiring " tt).headD "")
      else if isSubstr " - " tt then
        let parts := pySplit " - " tt
        if 1 < parts.length then pyStrip ((pySplit " | " (parts.getD 1 "")).headD "")
        else company
      else if isSubstr " at " tt then
        pyStrip ((pySplit " | " ((pySplit " at " tt).getD 1 "")).headD "")
      else company
  else company

/-- The `ui_text_patterns` removed from a candidate company name. -/
def companyUiTextPatterns : List RE :=
  [rcat [rstr "you may also apply directly on", .starL .dot, rstr "website"],
   rcat [rstr "apply directly on", .starL .dot, rstr "website"],
   rcat [rstr "powered by", .starG .dot],
   rcat [rchar '©', .starL .dot, rstr "all rights reserved"],
   rstr "loading...", rstr "pay found in job post", rstr "retrieved from the description"]

def companySuspiciousWords : List String := ["apply", "website", "directly", "loading"]

/-- Company-name cleanup (lines 258-278). -/
def linkedinCompanyClean (company : String) : String :=
  if company ≠ "" then
    let c := pyStrip (subPatterns true companyUiTextPatterns company)
    if c.length < 3 || companySuspiciousWords.any (fun w => isSubstr w (pyLower c))
    then "" else c
  else company

/-- The capture group `([A-Z][a-zA-Z0-9\s&]+?)`. -/
def companyGroup : RE := .grp (rcat [.elem upperElem, .plusL companyBodyElem])

/-- The `company_patterns` searched in the description (lines 283-293). -/
def companyPatterns : List RE :=
  [rcat [rstr "role at ", companyGroup,
         .alt (.elem wsElem) (.alt .eos (.alt (rchar '.') (rchar ',')))],
   rcat [rstr "at ", companyGroup,
         .alt (rcat [.plusG wsElem, rstr "is"])
           (.alt (rcat [.plusG wsElem, rstr "seeking"])
             (.alt (rcat [.plusG wsElem, rstr "looking"]) (rcat [.plusG wsElem, rstr "needs"])))],
   rcat [companyGroup, .plusG wsElem, rstr "is", .plusG wsElem, rstr "seeking"],
   rcat [companyGroup, .plusG wsElem, rstr "looking", .plusG wsElem, rstr "for"],
   rcat [rstr "join ", companyGroup, .plusG wsElem, rstr "as"],
   rcat [companyGroup, .plusG wsElem, rstr "is", .plusG wsElem, rstr "hiring"],
   rcat [companyGroup, .plusG wsElem, rstr "has", .plusG wsElem, rstr "an", .plusG wsElem,
         rstr "opening"],
   rcat [companyGroup, .plusG wsElem, rstr "San Mateo"],
   rcat [companyGroup, .plusG wsElem, rstr "CA"]]

def companyBadWords : List String :=
  ["gaps", "patient", "care", "healthcare", "quality", "systems", "hospitals", "payers",
   "use", "improve", "drive", "member", "enrollment", "acquisition", "retention",
   "reimbursement", "scaling", "growth", "hiring", "staff"]

/-- Validation of a pattern-extracted company name (lines 299-301). -/
def companyValid (c : String) : Bool :=
  2 < c.length && c.length < 50 &&
    !(companyBadWords.any fun w => isSubstr w (pyLower c))

/-- Pattern loop extracting a company from the description (lines 295-303):
the `break` fires only when validation succeeds. -/
def linkedinCompanyFromDesc (description : String) : List RE → String
  | [] => ""
  | p :: rest =>
    match reSearch true p description.data with
    | some (_, _, some g) =>
      let extracted := pyStrip (String.mk g)
      if companyValid extracted then extracted else linkedinCompanyFromDesc description rest
    | _ => linkedinCompanyFromDesc description rest

/-- Final fallback (lines 306-309): first capitalized word of the stripped
description, via `re.match` (case-sensitive). -/
def linkedinCompanyFallback (description : String) : String :=
  match reMatch0 false (.grp (rcat [.elem upperElem, .starG companyWordElem]))
      (pyStrip description).data with
  | some (_, _, some g) => String.mk g
  | _ => ""

/-- The whole company phase of `_scrape_linkedin` (lines 217-309). -/
def linkedinCompany (soup : Soup) (description : String) : String :=
  let company := scanSelAssign soup.selectOne
    (fun c => c ≠ "" && 2 < c.length && c.length < 100) linkedinCompanySelectors ""
  let company := linkedinCompanyFromTitle soup company
  let company := linkedinCompanyClean company
  let company := if company = "" then linkedinCompanyFromDesc description companyPatterns
                 else company
  if company = "" then linkedinCompanyFallback description else company

/-- Final branch of `_scrape_linkedin` (lines 311-314): note the failure
branch returns a 3-tuple. -/
def linkedinFinish (title description company : String) : PyTuple :=
  if description ≠ "" ∧ 200 < description.length then
    .mk4 true title description company
  else
    .mk3 false "" "Could not find complete job description on LinkedIn page. The page may use dynamic loading or have restricted access."

/-- `_scrape_linkedin`: the argument is the outcome of fetching and parsing
the page (`Except.error m` when `session.get`/`raise_for_status` raises `m`;
the surrounding `try/except` turns that into the error 4-tuple). -/
def scrapeLinkedin (fetched : Except String Soup) : PyTuple :=
  match fetched with
  | .error m => .mk4 false "" "" ("Error scraping LinkedIn: " ++ m)
  | .ok soup =>
    let title := linkedinTitle soup
    let description := linkedinDesc soup
    let company := linkedinCompany soup description
    linkedinFinish title description company

/-! ## The other extractors -/

def indeedTitleSelectors : List String :=
  ["h1[data-testid=\"jobsearch-JobInfoHeader-title\"]",
   "h1[class*=\"jobsearch-JobInfoHeader-title\"]", "h1[class*=\"title\"]", "h1",
   "[data-testid=\"job-title\"]", "[class*=\"job-title\"]"]

def indeedDescSelectors : List String :=
  ["[data-testid=\"jobsearch-JobComponent-description\"]",
   "[class*=\"jobsearch-JobComponent-description\"]", "[class*=\"job-description\"]",
   "[class*=\"description\"]", ".job-description", ".description",
   "[data-testid=\"job-description\"]"]

def indeedCompanySelectors : List String :=
  ["[data-testid=\"jobsearch-JobInfoHeader-companyName\"]", "[class*=\"company-name\"]",
   "[class*=\"employer\"]", ".company-name", ".employer"]

/-- The description scanned by `_scrape_indeed` (lines 344-361). -/
def indeedDesc (soup : Soup) : String :=
  scanSelAssign soup.selectOne (fun d => d ≠ "" && 100 < d.length) indeedDescSelectors ""

/-- `_scrape_indeed`: note the failure branch returns a 3-tuple. -/
def scrapeIndeed (fetched : Except String Soup) : PyTuple :=
  match fetched with
  | .error m => .mk4 false "" "" ("Error scraping Indeed: " ++ m)
  | .ok soup =>
    let title := scanSelAssign soup.selectOne
      (fun t => t ≠ "" && 3 < t.length) indeedTitleSelectors ""
    let company := scanSelAssign soup.selectOne
      (fun c => c ≠ "" && 2 < c.length) indeedCompanySelectors ""
    if indeedDesc soup ≠ "" then .mk4 true title (indeedDesc soup) company
    else .mk3 false "" "Could not find job description on Indeed page"

/-- The description scanned by `_scrape_glassdoor` (lines 402-406). -/
def glassdoorDesc (soup : Soup) : String :=
  (soup.selectOne "[class*=\"job-description\"]").getD ""

/-- `_scrape_glassdoor`. -/
def scrapeGlassdoor (fetched : Except String Soup) : PyTuple :=
  match fetched with
  | .error m => .mk4 false "" "" ("Error scraping Glassdoor: " ++ m)
  | .ok soup =>
    let title := (soup.selectOne "h1[class*=\"job-title\"]").getD ""
    if glassdoorDesc soup ≠ "" then .mk4 true title (glassdoorDesc soup) ""
    else .mk3 false "" "Could not find job description on Glassdoor page"

/-- The description scanned by `_scrape_monster` (lines 430-434). -/
def monsterDesc (soup : Soup) : String :=
  (soup.selectOne "[class*=\"job-description\"]").getD ""

/-- `_scrape_monster`. -/
def scrapeMonster (fetched : Except String Soup) : PyTuple :=
  match fetched with
  | .error m => .mk4 false "" "" ("Error scraping Monster: " ++ m)
  | .ok soup =>
    let title := (soup.selectOne "h1[class*=\"title\"]").getD ""
    if monsterDesc soup ≠ "" then .mk4 true title (monsterDesc soup) ""
    else .mk3 false "" "Could not find job description on Monster page"

/-- The description scanned by `_scrape_careerbuilder` (lines 458-462). -/
def careerbuilderDesc (soup : Soup) : String :=
  (soup.selectOne "[class*=\"job-description\"]").getD ""

/-- `_scrape_careerbuilder`. -/
def scrapeCareerbuilder (fetched : Except String Soup) : PyTuple :=
  match fetched with
  | .error m => .mk4 false "" "" ("Error scraping CareerBuilder: " ++ m)
  | .ok soup =>
    let title := (soup.selectOne "h1[class*=\"title\"]").getD ""
    if careerbuilderDesc soup ≠ "" then .mk4 true title (careerbuilderDesc soup) ""
    else .mk3 false "" "Could not find job description on CareerBuilder page"

def genericTitleSelectors : List String :=
  ["h1", "h2", ".title", ".job-title", "[class*=\"title\"]"]

def genericDescSelectors : List String :=
  ["[class*=\"description\"]", "[class*=\"job-description\"]", ".description",
   ".job-description", "main", "article"]

/-- The description scanned by `_scrape_generic` (lines 489-505). -/
def genericDesc (soup : Soup) : String :=
  scanSelAssign soup.selectOne (fun d => 100 < d.length) genericDescSelectors ""

/-- `_scrape_generic`: the title loop breaks on the first found element. -/
def scrapeGeneric (fetched : Except String Soup) : PyTuple :=
  match fetched with
  | .error m => .mk4 false "" "" ("Error scraping generic page: " ++ m)
  | .ok soup =>
    let title := scanSelAssign soup.selectOne (fun _ => true) genericTitleSelectors ""
    if genericDesc soup ≠ "" then .mk4 true title (genericDesc soup) ""
    else .mk3 false "" "Could not find job description on this page"

/-! ## The dispatcher (`scrape_job_description`) -/

/-- The strategy chosen from the lower-cased domain. -/
inductive Strategy where
  | linkedin | indeed | glassdoor | monster | careerbuilder | generic
deriving DecidableEq

/-- Strategy selection (lines 52-63): substring tests in source order. -/
def chooseStrategy (domain : String) : Strategy :=
  if isSubstr "linkedin.com" domain then .linkedin
  else if isSubstr "indeed.com" domain then .indeed
  else if isSubstr "glassdoor.com" domain then .glassdoor
  else if isSubstr "monster.com" domain then .monster
  else if isSubstr "careerbuilder.com" domain then .careerbuilder
  else .generic

/-- Run the chosen per-site extractor on a fetch outcome. -/
def runStrategy : Strategy → Except String Soup → PyTuple
  | .linkedin, f => scrapeLinkedin f
  | .indeed, f => scrapeIndeed f
  | .glassdoor, f => scrapeGlassdoor f
  | .monster, f => scrapeMonster f
  | .careerbuilder, f => scrapeCareerbuilder f
  | .generic, f => scrapeGeneric f

/-- `urllib.parse.urlparse(url).netloc`: strip a valid scheme, then, if the
remainder starts with `//`, take up to the first of `/?#`. -/
def pyNetloc (url : String) : String :=
  let l := url.data
  let rest :=
    match l.findIdx? (· = ':') with
    | some i =>
      if 0 < i && (match l.head? with | some c => asciiAlpha c | none => false)
          && (l.take i).all schemeChar
      then l.drop (i + 1) else l
    | none => l
  if rest.take 2 = ['/', '/'] then
    String.mk ((rest.drop 2).takeWhile fun c => c ≠ '/' && c ≠ '?' && c ≠ '#')
  else ""

/-- Observable events of one `scrape_job_description` call. -/
inductive Ev where
  | request (attempt : Nat)
  | sleep (seconds : Nat)
deriving DecidableEq

/-- The retry loop (lines 49-81) over the list `range(max_retries)`.  The
argument `att` gives, per attempt index, either the strategy's returned
tuple or the message of an exception it raised; the `match` on it is the
`try/except` of lines 51-79.  The empty-list base case is the fall-through
`return` of line 81. -/
def attemptLoop (att : Nat → Except String PyTuple) (maxRetries : Nat) :
    List Nat → PyTuple × List Ev
  | [] => (.mk4 false "" "" "Failed to scrape after multiple attempts", [])
  | i :: rest =>
    match att i with
    | .ok r =>
      if r.success then (r, [.request i])
      else if i = maxRetries - 1 then (r, [.request i])
      else
        let (res, evs) := attemptLoop att maxRetries rest
        (res, .request i :: .sleep 1 :: evs)
    | .error e =>
      if i = maxRetries - 1 then
        (.mk4 false "" "" ("Error scraping job description: " ++ e), [.request i])
      else
        let (res, evs) := attemptLoop att maxRetries rest
        (res, .request i :: .sleep 1 :: evs)

/-- The retry loop with `max_retries = 2`, i.e. over `range(2)`. -/
def scrapeAttempts (att : Nat → Except String PyTuple) : PyTuple × List Ev :=
  attemptLoop att 2 [0, 1]

/-- `scrape_job_description`: strip the URL, reject non-`http` prefixes,
choose the strategy from the lower-cased netloc, and run the retry loop.
`net i` is the outcome of the attempt-`i` page fetch. -/
def scrapeJobDescription (url : String) (net : Nat → Except String Soup) :
    PyTuple × List Ev :=
  let url := pyStrip url
  if !pyStartswith "http" url then (.mk4 false "" "" "Invalid URL format", [])
  else
    let domain := pyLower (pyNetloc url)
    scrapeAttempts fun i => .ok (runStrategy (chooseStrategy domain) (net i))

/-- Number of network requests in a trace. -/
def countRequests (evs : List Ev) : Nat :=
  evs.countP fun e => match e with | .request _ => true | _ => false

/-! ## `clean_description` -/

/-- The `unwanted_patterns` of `clean_description` (lines 524-534). -/
def cleanPatterns : List RE :=
  [bWord "cookie", bWord "privacy policy", bWord "terms of service",
   rcat [rchar '©', .starL .dot, rstr "all rights reserved"],
   bWord "powered by", bWord "loading...",
   rcat [rstr "base pay range", .starG wsElem, rchar '$', .plusG digitCommaElem,
         .opt (.lit '.'), .starG digitElem, .starG wsElem, rchar '-', .starG wsElem,
         rchar '$', .plusG digitCommaElem, .opt (.lit '.'), .starG digitElem,
         .starG wsElem, rstr "yr"],
   rcat [rstr "pay range", .starG wsElem, rchar '$', .plusG digitCommaElem,
         .opt (.lit '.'), .starG digitElem, .starG wsElem, rchar '-', .starG wsElem,
         rchar '$', .plusG digitCommaElem, .opt (.lit '.'), .starG digitElem,
         .starG wsElem, rstr "yr"]]

/-- `clean_description` before the length cap: collapse whitespace, remove
the unwanted patterns (IGNORECASE), strip. -/
def cleanCore (description : String) : String :=
  if description = "" then ""
  else pyStrip (subPatterns true cleanPatterns (collapseWs description))

/-- `clean_description` (lines 515-546). -/
def cleanDescription (description : String) : String :=
  if description = "" then ""
  else
    let d := cleanCore description
    if 5000 < d.length then String.mk (d.data.take 5000) ++ "..." else d

/-! ## Concrete pages used to evaluate the model -/

/-- A LinkedIn job page body: genuine job content, long enough, free of the
UI-indicator substrings and of the unwanted patterns. -/
def acmeRaw : String := "We are seeking a backend engineer with experience in distributed systems. Responsibilities include designing scalable services, building data pipelines, and mentoring junior developers. Qualifications: five years of software engineering experience and strong communication skills."

/-- A LinkedIn page whose company selectors yield nothing and whose `<title>`
is the `"Company hiring Title in Location | LinkedIn"` form. -/
def acmeSoup : Soup :=
  { selectOne := fun _ => none
    selectAll := fun sel =>
      if sel = "[class*=\"jobs-description__content\"]" then [acmeRaw] else []
    pageTitle := some "Acme Corp hiring Backend Engineer in Remote | LinkedIn"
    findParentSiblings := fun _ => [] }

/-- A job-content text containing `"appwelcome backly"`: deleting the later
pattern `welcome back` splices the earlier word `apply` back together. -/
def spliceRaw : String := "The team values experience and craftsmanship. Candidates should appwelcome backly for this position through our careers portal. Responsibilities include building reliable services and improving quality across the platform. Strong skills in testing are expected."

/-- `spliceRaw` after the LinkedIn cleanup pass: it contains a standalone
`apply`. -/
def spliceCleaned : String := "The team values experience and craftsmanship. Candidates should apply for this position through our careers portal. Responsibilities include building reliable services and improving quality across the platform. Strong skills in testing are expected."

/-- A LinkedIn page serving `spliceRaw` as its description and a company name
via a selector. -/
def spliceSoup : Soup :=
  { selectOne := fun sel => if sel = "[class*=\"company-name\"]" then some "TestCo" else none
    selectAll := fun sel =>
      if sel = "[class*=\"jobs-description__content\"]" then [spliceRaw] else []
    pageTitle := none
    findParentSiblings := fun _ => [] }

/-- Genuine sentences that contain, inside real content, a standalone
`apply`, a standalone `or`, and the phrases `first name`, `email`,
`password`, `continue`, `welcome back`. -/
def noisyRaw : String := "You can apply today or tomorrow. Give your first name, an email, a password. Then continue now. The welcome back banner shows the account."

/-- `noisyRaw` after the LinkedIn cleanup pass. -/
def noisyCleaned : String := "You can today tomorrow. Give your , an , a . Then now. The banner shows the account."

/-- Case-insensitive standalone-word occurrence (`\bw\b` somewhere in `s`). -/
def hasWord (w s : String) : Bool :=
  existsMatch true (bWord w) s.data

/-- An Indeed page whose description element holds a short text. -/
def indeedShortSoup : Soup :=
  { selectOne := fun sel =>
      if sel = "[data-testid=\"jobsearch-JobComponent-description\"]"
      then some "Great team, nice office." else none
    selectAll := fun _ => []
    pageTitle := none
    findParentSiblings := fun _ => [] }

/-- A page on which every query comes back empty. -/
def emptySoup : Soup :=
  { selectOne := fun _ => none
    selectAll := fun _ => []
    pageTitle := none
    findParentSiblings := fun _ => [] }

/-- A page whose every `select_one` query returns the same text. -/
def constSoup (t : String) : Soup :=
  { selectOne := fun _ => some t
    selectAll := fun _ => [t]
    pageTitle := some t
    findParentSiblings := fun _ => [] }

/-- A LinkedIn page with a 210-character description and a selector-provided
company. -/
def smallOkRaw : String := "Responsibilities include building distributed services, maintaining data pipelines, reviewing designs, and mentoring developers. The position requires experience with testing and strong communication abilities."

def smallOkSoup : Soup :=
  { selectOne := fun sel => if sel = "[class*=\"company-name\"]" then some "TestCo" else none
    selectAll := fun sel =>
      if sel = "[class*=\"jobs-description__content\"]" then [smallOkRaw] else []
    pageTitle := none
    findParentSiblings := fun _ => [] }

/-! ## Helper lemmas on the finishing branches -/

theorem linkedinFinish_success_len (t d c : String)
    (h : (linkedinFinish t d c).success = true) :
    200 < (linkedinFinish t d c).third.length := by
  unfold linkedinFinish at h ⊢
  split at h
  · next hc =>
    rw [if_pos hc]
    simpa [PyTuple.third] using hc.2
  · simp [PyTuple.success] at h

/-! ## Claims -/

/-- C9: on a LinkedIn page whose company selectors yield nothing and whose
`<title>` is `"Acme Corp hiring Backend Engineer in Remote | LinkedIn"`, the
title-reparse fallback (`hiring`, then `-`, then `at`, in that order)
produces `company = "Acme Corp"` in the returned 4-tuple. -/
theorem claim9_company_from_title :
    scrapeLinkedin (.ok acmeSoup) =
      .mk4 true "Acme Corp hiring Backend Engineer in Remote" acmeRaw "Acme Corp" := rfl

/-- C10 counterexample: the claim says a description returned by the
LinkedIn extractor never contains a standalone `apply`; but on `spliceSoup`
the extractor succeeds and its returned description contains a standalone
`apply` — deleting the later pattern `welcome back` from
`"appwelcome backly"` splices `apply` together after the `\bapply\b` pass
already ran. -/
theorem claim10_counterexample :
    scrapeLinkedin (.ok spliceSoup) = .mk4 true "" spliceCleaned "TestCo" ∧
      hasWord "apply" spliceCleaned = true := ⟨rfl, by decide⟩

/-- C10 (amended): the cleanup pass deletes the occurrences of
`\bapply\b`, `\bor\b`, `first name`, `email`, `password`, `continue`,
`welcome back` that are present when each pattern's pass runs, even inside
genuine job-content sentences (demonstrated on `noisyRaw`); but a later
deletion can splice together a new occurrence of an earlier pattern
(demonstrated on `spliceRaw`), so the output is not guaranteed free of
them. -/
theorem claim10_amended_thm :
    (linkedinCleanupDesc noisyRaw = noisyCleaned ∧
      linkedinCleanupDesc spliceRaw = spliceCleaned) ∧
    (hasWord "apply" noisyRaw = true ∧ hasWord "or" noisyRaw = true ∧
      isSubstr "first name" (pyLower noisyRaw) = true ∧
      isSubstr "email" (pyLower noisyRaw) = true ∧
      isSubstr "password" (pyLower noisyRaw) = true ∧
      isSubstr "continue" (pyLower noisyRaw) = true ∧
      isSubstr "welcome back" (pyLower noisyRaw) = true) ∧
    (hasWord "apply" noisyCleaned = false ∧ hasWord "or" noisyCleaned = false ∧
      isSubstr "first name" (pyLower noisyCleaned) = false ∧
      isSubstr "email" (pyLower noisyCleaned) = false ∧
      isSubstr "password" (pyLower noisyCleaned) = false ∧
      isSubstr "continue" (pyLower noisyCleaned) = false ∧
      isSubstr "welcome back" (pyLower noisyCleaned) = false) ∧
    (hasWord "apply" spliceRaw = false ∧ hasWord "apply" spliceCleaned = true) :=
  ⟨⟨rfl, rfl⟩, by decide, by decide, by decide⟩

/-- C2 (code bug): the extraction-failure branches return 3-tuples — the
error message sits in the description slot and there is no fourth
component — although the functions are annotated
`Tuple[bool, str, str, str]` and documented as returning
`(success, title, description, company)`. -/
theorem claim2_three_tuple_return :
    scrapeIndeed (.ok emptySoup) =
      .mk3 false "" "Could not find job description on Indeed page" ∧
    scrapeLinkedin (.ok emptySoup) =
      .mk3 false "" "Could not find complete job description on LinkedIn page. The page may use dynamic loading or have restricted access." ∧
    scrapeGeneric (.ok emptySoup) =
      .mk3 false "" "Could not find job description on this page" ∧
    scrapeGlassdoor (.ok emptySoup) =
      .mk3 false "" "Could not find job description on Glassdoor page" := by
  refine ⟨rfl, rfl, rfl, rfl⟩

/-- C1 counterexample: the claim says every extraction path ties
`success=true` to a description of at least 200 characters; but the Indeed
extractor returns `success=true` for a 24-character description. -/
theorem claim1_counterexample :
    (scrapeIndeed (.ok indeedShortSoup)).success = true ∧
      (scrapeIndeed (.ok indeedShortSoup)).third.length < 200 := by decide

/-- C1 (amended): only the LinkedIn extractor enforces a length threshold on
success — `success=true` there requires a description strictly longer than
200 characters; each of the Indeed, Glassdoor, Monster, CareerBuilder and
generic extractors succeeds exactly when its scanned description is
non-empty: any non-empty description, however short, yields `success=true`
and is returned in the description slot. -/
theorem claim1_amended_thm (f : Except String Soup) (soup : Soup) :
    ((scrapeLinkedin f).success = true → 200 < (scrapeLinkedin f).third.length) ∧
    ((scrapeIndeed (.ok soup)).success = true ↔ indeedDesc soup ≠ "") ∧
    (indeedDesc soup ≠ "" → (scrapeIndeed (.ok soup)).third = indeedDesc soup) ∧
    ((scrapeGlassdoor (.ok soup)).success = true ↔ glassdoorDesc soup ≠ "") ∧
    (glassdoorDesc soup ≠ "" →
      (scrapeGlassdoor (.ok soup)).third = glassdoorDesc soup) ∧
    ((scrapeMonster (.ok soup)).success = true ↔ monsterDesc soup ≠ "") ∧
    (monsterDesc soup ≠ "" → (scrapeMonster (.ok soup)).third = monsterDesc soup) ∧
    ((scrapeCareerbuilder (.ok soup)).success = true ↔ careerbuilderDesc soup ≠ "") ∧
    (careerbuilderDesc soup ≠ "" →
      (scrapeCareerbuilder (.ok soup)).third = careerbuilderDesc soup) ∧
    ((scrapeGeneric (.ok soup)).success = true ↔ genericDesc soup ≠ "") ∧
    (genericDesc soup ≠ "" → (scrapeGeneric (.ok soup)).third = genericDesc soup) := by
  refine ⟨?_, ?_, ?_, ?_, ?_, ?_, ?_, ?_, ?_, ?_, ?_⟩
  · intro h
    cases f with
    | error m => simp [scrapeLinkedin, PyTuple.success] at h
    | ok s => exact linkedinFinish_success_len _ _ _ h
  · simp only [scrapeIndeed]
    split
    · next hc => simp [PyTuple.success, hc]
    · next hc => simp [PyTuple.success, hc]
  · intro h
    simp only [scrapeIndeed]
    rw [if_pos h]
    rfl
  · simp only [scrapeGlassdoor]
    split
    · next hc => simp [PyTuple.success, hc]
    · next hc => simp [PyTuple.success, hc]
  · intro h
    simp only [scrapeGlassdoor]
    rw [if_pos h]
    rfl
  · simp only [scrapeMonster]
    split
    · next hc => simp [PyTuple.success, hc]
    · next hc => simp [PyTuple.success, hc]
  · intro h
    simp only [scrapeMonster]
    rw [if_pos h]
    rfl
  · simp only [scrapeCareerbuilder]
    split
    · next hc => simp [PyTuple.success, hc]
    · next hc => simp [PyTuple.success, hc]
  · intro h
    simp only [scrapeCareerbuilder]
    rw [if_pos h]
    rfl
  · simp only [scrapeGeneric]
    split
    · next hc => simp [PyTuple.success, hc]
    · next hc => simp [PyTuple.success, hc]
  · intro h
    simp only [scrapeGeneric]
    rw [if_pos h]
    rfl

/-- Witness for C1 (amended): a successful LinkedIn extraction exceeding the
threshold, the five other extractors succeeding on the one-character
description of `constSoup "x"`, and the Indeed extractor succeeding on the
24-character description of `indeedShortSoup`. -/
theorem claim1_amended_witness :
    200 < (scrapeLinkedin (.ok smallOkSoup)).third.length ∧
    (scrapeIndeed (.ok (constSoup "x"))).third = indeedDesc (constSoup "x") ∧
    (scrapeGlassdoor (.ok (constSoup "x"))).third = glassdoorDesc (constSoup "x") ∧
    (scrapeMonster (.ok (constSoup "x"))).third = monsterDesc (constSoup "x") ∧
    (scrapeCareerbuilder (.ok (constSoup "x"))).third = careerbuilderDesc (constSoup "x") ∧
    (scrapeGeneric (.ok (constSoup "x"))).third = genericDesc (constSoup "x") ∧
    (scrapeIndeed (.ok indeedShortSoup)).success = true :=
  ⟨(claim1_amended_thm (.ok smallOkSoup) (constSoup "x")).1 rfl,
   (claim1_amended_thm (.ok smallOkSoup) (constSoup "x")).2.2.1 (by decide),
   (claim1_amended_thm (.ok smallOkSoup) (constSoup "x")).2.2.2.2.1 (by decide),
   (claim1_amended_thm (.ok smallOkSoup) (constSoup "x")).2.2.2.2.2.2.1 (by decide),
   (claim1_amended_thm (.ok smallOkSoup) (constSoup "x")).2.2.2.2.2.2.2.2.1 (by decide),
   (claim1_amended_thm (.ok smallOkSoup) (constSoup "x")).2.2.2.2.2.2.2.2.2.2 (by decide),
   ((claim1_amended_thm (.ok smallOkSoup) indeedShortSoup).2.1).mpr (by decide)⟩

/-! ## Dispatcher claims -/

/-- C3: a URL that does not begin with `http` after trimming is rejected
immediately with `"Invalid URL format"`, and the event trace is empty — in
particular no network request is issued. -/
theorem claim3_invalid_url (url : String) (net : Nat → Except String Soup)
    (h : pyStartswith "http" (pyStrip url) = false) :
    scrapeJobDescription url net = (.mk4 false "" "" "Invalid URL format", []) ∧
      countRequests (scrapeJobDescription url net).2 = 0 := by
  refine ⟨?_, ?_⟩ <;> simp [scrapeJobDescription, h, countRequests]

/-- Witness for C3. -/
theorem claim3_witness :
    pyStartswith "http" (pyStrip "  www.example.com/jobs  ") = false ∧
      scrapeJobDescription "  www.example.com/jobs  " (fun _ => .error "net") =
        (.mk4 false "" "" "Invalid URL format", []) :=
  ⟨by decide, (claim3_invalid_url "  www.example.com/jobs  " (fun _ => .error "net")
      (by decide)).1⟩

/-- The tuple produced by the last attempt of the retry loop: the returned
result when it is a result, and the converted error tuple when the strategy
raised. -/
def lastAttemptResult : Except String PyTuple → PyTuple
  | .ok r => r
  | .error e => .mk4 false "" "" ("Error scraping job description: " ++ e)

/-- C4: the retry loop makes at most 2 attempts; a first successful attempt
is returned with no second attempt and no sleep; when the first attempt
fails or raises, the loop sleeps 1 second, attempts once more, and returns
the second attempt's result/error (last-attempt wins). -/
theorem claim4_retry_policy (att : Nat → Except String PyTuple) :
    (∀ r, att 0 = .ok r → r.success = true →
      scrapeAttempts att = (r, [.request 0])) ∧
    (∀ r, att 0 = .ok r → r.success = false →
      scrapeAttempts att = (lastAttemptResult (att 1),
        [.request 0, .sleep 1, .request 1])) ∧
    (∀ e, att 0 = .error e →
      scrapeAttempts att = (lastAttemptResult (att 1),
        [.request 0, .sleep 1, .request 1])) ∧
    countRequests (scrapeAttempts att).2 ≤ 2 := by
  refine ⟨?_, ?_, ?_, ?_⟩
  · intro r h0 hs
    simp [scrapeAttempts, attemptLoop, h0, hs]
  · intro r h0 hs
    rcases h1 : att 1 with e1 | r1
    · simp [scrapeAttempts, attemptLoop, h0, hs, h1, lastAttemptResult]
    · by_cases hs1 : r1.success = true <;>
        simp [scrapeAttempts, attemptLoop, h0, hs, h1, hs1, lastAttemptResult]
  · intro e h0
    rcases h1 : att 1 with e1 | r1
    · simp [scrapeAttempts, attemptLoop, h0, h1, lastAttemptResult]
    · by_cases hs1 : r1.success = true <;>
        simp [scrapeAttempts, attemptLoop, h0, h1, hs1, lastAttemptResult]
  · rcases h0 : att 0 with e0 | r0
    · rcases h1 : att 1 with e1 | r1
      · simp [scrapeAttempts, attemptLoop, h0, h1, countRequests]
      · by_cases hs1 : r1.success = true <;>
          simp [scrapeAttempts, attemptLoop, h0, h1, hs1, countRequests]
    · by_cases hs : r0.success = true
      · simp [scrapeAttempts, attemptLoop, h0, hs, countRequests]
      · rcases h1 : att 1 with e1 | r1
        · simp [scrapeAttempts, attemptLoop, h0, hs, h1, countRequests]
        · by_cases hs1 : r1.success = true <;>
            simp [scrapeAttempts, attemptLoop, h0, hs, h1, hs1, countRequests]

/-- Witness for C4. -/
theorem claim4_witness :
    (fun i => if i = 0 then Except.ok (PyTuple.mk4 true "t" "d" "c")
              else Except.error "late") 0 = Except.ok (PyTuple.mk4 true "t" "d" "c") ∧
    (PyTuple.mk4 true "t" "d" "c").success = true ∧
    scrapeAttempts (fun i => if i = 0 then Except.ok (PyTuple.mk4 true "t" "d" "c")
        else Except.error "late") = (.mk4 true "t" "d" "c", [.request 0]) ∧
    scrapeAttempts (fun i => if i = 0 then Except.ok (PyTuple.mk4 false "" "" "e1")
        else Except.ok (PyTuple.mk4 true "x" "y" "z")) =
      (.mk4 true "x" "y" "z", [.request 0, .sleep 1, .request 1]) ∧
    scrapeAttempts (fun i => if i = 0 then Except.error "raised"
        else Except.ok (PyTuple.mk4 true "x" "y" "z")) =
      (.mk4 true "x" "y" "z", [.request 0, .sleep 1, .request 1]) :=
  ⟨rfl, rfl,
   (claim4_retry_policy _).1 _ rfl rfl,
   (claim4_retry_policy (fun i => if i = 0 then Except.ok (PyTuple.mk4 false "" "" "e1")
        else Except.ok (PyTuple.mk4 true "x" "y" "z"))).2.1 _ rfl rfl,
   (claim4_retry_policy (fun i => if i = 0 then Except.error "raised"
        else Except.ok (PyTuple.mk4 true "x" "y" "z"))).2.2.1 _ rfl⟩

theorem linkedinFinish_failure_msg (t d c : String)
    (h : (linkedinFinish t d c).success = false) :
    0 < ((linkedinFinish t d c).errField).length := by
  unfold linkedinFinish at h ⊢
  split at h
  · simp [PyTuple.success] at h
  · next hc =>
    rw [if_neg hc]
    decide

/-- Non-emptiness of the error slot of every failing extractor result. -/
theorem runStrategy_failure_msg (st : Strategy) (f : Except String Soup)
    (h : (runStrategy st f).success = false) :
    0 < ((runStrategy st f).errField).length := by
  cases st <;> cases f <;>
    simp only [runStrategy, scrapeLinkedin, scrapeIndeed, scrapeGlassdoor,
      scrapeMonster, scrapeCareerbuilder, scrapeGeneric] at h ⊢ <;>
    first
    | (simp only [PyTuple.errField, String.length_append]
       exact Nat.lt_of_lt_of_le (by decide) (Nat.le_add_right _ _))
    | (exact linkedinFinish_failure_msg _ _ _ h)
    | (split at h <;> simp_all [PyTuple.success, PyTuple.errField] <;> decide)

/-- When every attempt returns a tuple, the loop's result is the first or
the second attempt's tuple. -/
theorem scrapeAttempts_ok_result (att : Nat → Except String PyTuple) (g : Nat → PyTuple)
    (hg : ∀ i, att i = .ok (g i)) :
    (scrapeAttempts att).1 = g 0 ∨ (scrapeAttempts att).1 = g 1 := by
  by_cases h0 : (g 0).success = true
  · left
    simp [scrapeAttempts, attemptLoop, hg 0, h0]
  · right
    by_cases h1 : (g 1).success = true <;>
      simp [scrapeAttempts, attemptLoop, hg 0, hg 1, h0, h1]

/-- C5: exceptions raised by a strategy are caught by the retry loop — when
the last attempt raises, the result is the converted
`"Error scraping job description: <message>"` failure tuple — and every
failing `scrape_job_description` result carries a non-empty message in its
error slot; the dispatcher never re-raises. -/
theorem claim5_exception_handling :
    (∀ (att : Nat → Except String PyTuple) (e₀ e₁ : String),
      att 0 = .error e₀ → att 1 = .error e₁ →
      scrapeAttempts att =
        (.mk4 false "" "" ("Error scraping job description: " ++ e₁),
          [.request 0, .sleep 1, .request 1])) ∧
    (∀ (url : String) (net : Nat → Except String Soup),
      (scrapeJobDescription url net).1.success = false →
      0 < (((scrapeJobDescription url net).1).errField).length) := by
  constructor
  · intro att e0 e1 h0 h1
    simp [scrapeAttempts, attemptLoop, h0, h1]
  · intro url net h
    by_cases hsw : pyStartswith "http" (pyStrip url) = true
    · simp only [scrapeJobDescription, hsw, Bool.not_true, Bool.false_eq_true,
        if_false] at h ⊢
      rcases scrapeAttempts_ok_result _
          (fun i => runStrategy (chooseStrategy (pyLower (pyNetloc (pyStrip url)))) (net i))
          (fun _ => rfl) with hc | hc
      · rw [hc] at h ⊢
        exact runStrategy_failure_msg _ _ h
      · rw [hc] at h ⊢
        exact runStrategy_failure_msg _ _ h
    · simp only [Bool.not_eq_true] at hsw
      simp only [scrapeJobDescription, hsw, Bool.not_false, if_true] at h ⊢
      decide

/-- Witness for C5. -/
theorem claim5_witness :
    scrapeAttempts (fun i => if i = 0 then .error "boom0" else .error "boom1") =
      (.mk4 false "" "" "Error scraping job description: boom1",
        [.request 0, .sleep 1, .request 1]) ∧
    (scrapeJobDescription "http://jobs.example.com/1" (fun _ => .error "down")).1.success
        = false ∧
    0 < (((scrapeJobDescription "http://jobs.example.com/1"
        (fun _ => .error "down")).1).errField).length :=
  ⟨claim5_exception_handling.1 _ "boom0" "boom1" rfl rfl,
   by decide,
   claim5_exception_handling.2 "http://jobs.example.com/1" (fun _ => .error "down")
     (by decide)⟩

/-- C8: the extraction strategy is chosen from the lower-cased netloc by
substring tests in the fixed priority order linkedin.com, indeed.com,
glassdoor.com, monster.com, careerbuilder.com, with the generic strategy
for every other host; and the dispatcher runs exactly the strategy chosen
from the lower-cased netloc of the stripped URL. -/
theorem claim8_strategy_selection (d url : String) (net : Nat → Except String Soup) :
    (chooseStrategy d = .linkedin ↔ isSubstr "linkedin.com" d = true) ∧
    (chooseStrategy d = .indeed ↔
      (isSubstr "linkedin.com" d = false ∧ isSubstr "indeed.com" d = true)) ∧
    (chooseStrategy d = .glassdoor ↔
      (isSubstr "linkedin.com" d = false ∧ isSubstr "indeed.com" d = false ∧
        isSubstr "glassdoor.com" d = true)) ∧
    (chooseStrategy d = .monster ↔
      (isSubstr "linkedin.com" d = false ∧ isSubstr "indeed.com" d = false ∧
        isSubstr "glassdoor.com" d = false ∧ isSubstr "monster.com" d = true)) ∧
    (chooseStrategy d = .careerbuilder ↔
      (isSubstr "linkedin.com" d = false ∧ isSubstr "indeed.com" d = false ∧
        isSubstr "glassdoor.com" d = false ∧ isSubstr "monster.com" d = false ∧
        isSubstr "careerbuilder.com" d = true)) ∧
    (chooseStrategy d = .generic ↔
      (isSubstr "linkedin.com" d = false ∧ isSubstr "indeed.com" d = false ∧
        isSubstr "glassdoor.com" d = false ∧ isSubstr "monster.com" d = false ∧
        isSubstr "careerbuilder.com" d = false)) ∧
    (pyStartswith "http" (pyStrip url) = true →
      scrapeJobDescription url net =
        scrapeAttempts fun i =>
          .ok (runStrategy (chooseStrategy (pyLower (pyNetloc (pyStrip url)))) (net i))) := by
  refine ⟨?_, ?_, ?_, ?_, ?_, ?_, ?_⟩
  · simp only [chooseStrategy]
    split_ifs with h1 h2 h3 h4 h5 <;> simp_all
  · simp only [chooseStrategy]
    split_ifs with h1 h2 h3 h4 h5 <;> simp_all
  · simp only [chooseStrategy]
    split_ifs with h1 h2 h3 h4 h5 <;> simp_all
  · simp only [chooseStrategy]
    split_ifs with h1 h2 h3 h4 h5 <;> simp_all
  · simp only [chooseStrategy]
    split_ifs with h1 h2 h3 h4 h5 <;> simp_all
  · simp only [chooseStrategy]
    split_ifs with h1 h2 h3 h4 h5 <;> simp_all
  · intro h
    simp [scrapeJobDescription, h]

/-- Witness for C8. -/
theorem claim8_witness :
    chooseStrategy "www.glassdoor.com" = .glassdoor ∧
    chooseStrategy "careers.example.org" = .generic ∧
    scrapeJobDescription "https://www.indeed.com/viewjob?jk=1" (fun _ => .error "net") =
      scrapeAttempts fun i =>
        .ok (runStrategy
          (chooseStrategy (pyLower (pyNetloc (pyStrip "https://www.indeed.com/viewjob?jk=1"))))
          ((fun _ => Except.error "net") i)) :=
  ⟨((claim8_strategy_selection "www.glassdoor.com" "" (fun _ => .error "")).2.2.1).mpr
      ⟨by decide, by decide, by decide⟩,
   ((claim8_strategy_selection "careers.example.org" "" (fun _ => .error "")).2.2.2.2.2.1).mpr
      ⟨by decide, by decide, by decide, by decide, by decide⟩,
   (claim8_strategy_selection "" "https://www.indeed.com/viewjob?jk=1"
      (fun _ => .error "net")).2.2.2.2.2.2 (by decide)⟩

/-! ## `clean_description` claims -/

/-- C7: when the cleaned text exceeds 5000 characters the output is exactly
the first 5000 characters plus `"..."` — 5003 characters in total; cleaned
text of at most 5000 characters is returned untruncated. -/
theorem claim7_length_cap (x : String) :
    (5000 < (cleanCore x).length →
      (cleanDescription x).length = 5003 ∧
        cleanDescription x = String.mk ((cleanCore x).data.take 5000) ++ "...") ∧
    ((cleanCore x).length ≤ 5000 → cleanDescription x = cleanCore x) := by
  by_cases hx : x = ""
  · subst hx
    constructor
    · intro h
      simp [cleanCore] at h
    · intro _
      simp [cleanDescription, cleanCore]
  · constructor
    · intro h
      simp only [cleanDescription]
      rw [if_neg hx, if_pos h]
      refine ⟨?_, rfl⟩
      rw [String.length_append]
      show (List.take 5000 (cleanCore x).data).length + (3 : Nat) = 5003
      rw [List.length_take]
      have hlen : (cleanCore x).length = (cleanCore x).data.length := rfl
      omega
    · intro h
      simp only [cleanDescription]
      rw [if_neg hx, if_neg (by omega)]

/-- No clean-up pattern can match at an `'a'` (IGNORECASE flag set). -/
theorem cleanPatterns_a_nomatch :
    ∀ p ∈ cleanPatterns,
      (∀ s', tryMatchAt true p none ('a' :: s') = none) ∧
      (∀ s', tryMatchAt true p (some 'a') ('a' :: s') = none) := by
  intro p hp
  simp only [cleanPatterns, List.mem_cons, List.not_mem_nil, or_false] at hp
  rcases hp with rfl | rfl | rfl | rfl | rfl | rfl | rfl | rfl
  all_goals exact ⟨fun _ => rfl, fun _ => rfl⟩

/-- `\s+` cannot match at an `'a'`. -/
theorem wsPlus_a_nomatch :
    (∀ s', tryMatchAt false wsPlus none ('a' :: s') = none) ∧
    (∀ s', tryMatchAt false wsPlus (some 'a') ('a' :: s') = none) :=
  ⟨fun _ => rfl, fun _ => rfl⟩

/-- A substitution pass leaves a list of `'a'`s unchanged when the pattern
matches at no position. -/
theorem subAllGo_id_alla (ci : Bool) (p : RE) (r : List Char)
    (hnone : ∀ s', tryMatchAt ci p none ('a' :: s') = none)
    (ha : ∀ s', tryMatchAt ci p (some 'a') ('a' :: s') = none) :
    ∀ (fuel : Nat) (s : List Char) (prev : Option Char),
      (∀ c ∈ s, c = 'a') → (prev = none ∨ prev = some 'a') →
      subAllGo ci p r fuel prev s = s := by
  intro fuel
  induction fuel with
  | zero => intro s prev _ _; rfl
  | succ n ih =>
    intro s prev hs hprev
    cases s with
    | nil => rfl
    | cons c cs =>
      have hc : c = 'a' := hs c (by simp)
      subst hc
      have hm : tryMatchAt ci p prev ('a' :: cs) = none := by
        rcases hprev with rfl | rfl
        · exact hnone cs
        · exact ha cs
      simp only [subAllGo, hm]
      rw [ih cs (some 'a') (fun c h => hs c (by simp [h])) (Or.inr rfl)]

/-- `dropTrailing` leaves a list of `'a'`s unchanged. -/
theorem dropTrailing_alla (l : List Char) (h : ∀ c ∈ l, c = 'a') :
    dropTrailing l = l := by
  induction l with
  | nil => rfl
  | cons c cs ih =>
    have hc : c = 'a' := h c (by simp)
    subst hc
    rw [dropTrailing, ih (fun c hm => h c (by simp [hm]))]
    cases cs with
    | nil => rfl
    | cons d ds => rfl

/-- `cleanCore` is the identity on all-`'a'` strings. -/
theorem cleanCore_replicate (n : Nat) :
    cleanCore (String.mk (List.replicate n 'a')) = String.mk (List.replicate n 'a') := by
  cases n with
  | zero => rfl
  | succ m =>
    have halla : ∀ c ∈ List.replicate (m + 1) 'a', c = 'a' :=
      fun c hc => List.eq_of_mem_replicate hc
    have hne : String.mk (List.replicate (m + 1) 'a') ≠ "" := by
      simp [String.ext_iff]
    rw [cleanCore, if_neg hne]
    have hcollapse : collapseWs (String.mk (List.replicate (m + 1) 'a')) =
        String.mk (List.replicate (m + 1) 'a') := by
      unfold collapseWs subAll
      rw [subAllGo_id_alla false wsPlus [' '] wsPlus_a_nomatch.1 wsPlus_a_nomatch.2
        _ _ _ halla (Or.inl rfl)]
    rw [hcollapse]
    have hsub : subPatterns true cleanPatterns (String.mk (List.replicate (m + 1) 'a')) =
        String.mk (List.replicate (m + 1) 'a') := by
      have : ∀ ps, (∀ p ∈ ps, p ∈ cleanPatterns) →
          subPatterns true ps (String.mk (List.replicate (m + 1) 'a')) =
            String.mk (List.replicate (m + 1) 'a') := by
        intro ps
        induction ps with
        | nil => intro _; rfl
        | cons q qs ih =>
          intro hmem
          have hq := cleanPatterns_a_nomatch q (hmem q (by simp))
          have hstep : subStr true q (String.mk (List.replicate (m + 1) 'a')) =
              String.mk (List.replicate (m + 1) 'a') := by
            unfold subStr subAll
            rw [subAllGo_id_alla true q [] hq.1 hq.2 _ _ _ halla (Or.inl rfl)]
          unfold subPatterns at ih ⊢
          simp only [List.foldl_cons, hstep]
          exact ih fun p hp => hmem p (by simp [hp])
      exact this cleanPatterns fun p hp => hp
    rw [hsub]
    unfold pyStrip pyStripL
    have hdrop : (List.replicate (m + 1) 'a').dropWhile pySpace =
        List.replicate (m + 1) 'a' := by
      rw [List.replicate_succ, List.dropWhile_cons_of_neg (by decide)]
    show String.mk (dropTrailing ((String.mk (List.replicate (m + 1) 'a')).data.dropWhile pySpace)) = _
    rw [show (String.mk (List.replicate (m + 1) 'a')).data = List.replicate (m + 1) 'a' from rfl,
      hdrop, dropTrailing_alla _ halla]

/-- Witness for C7. -/
theorem claim7_witness :
    5000 < (cleanCore (String.mk (List.replicate 5100 'a'))).length ∧
      (cleanDescription (String.mk (List.replicate 5100 'a'))).length = 5003 ∧
      cleanDescription "short text" = cleanCore "short text" :=
  have h : 5000 < (cleanCore (String.mk (List.replicate 5100 'a'))).length := by
    rw [cleanCore_replicate]
    show 5000 < (List.replicate 5100 'a').length
    rw [List.length_replicate]
    omega
  ⟨h, ((claim7_length_cap _).1 h).1, (claim7_length_cap "short text").2 (by decide)⟩

/-! ## Whitespace normal form and identity lemmas for `re.sub` -/

theorem relemMatch_ws (ci : Bool) (c : Char) : relemMatch ci wsElem c = pySpace c := by
  cases ci <;> simp [relemMatch, wsElem, inRanges]

theorem relemMatch_ws_fun (ci : Bool) : relemMatch ci wsElem = pySpace :=
  funext (relemMatch_ws ci)

theorem take_takeWhile_len (p : Char → Bool) (l : List Char) :
    l.take (l.takeWhile p).length = l.takeWhile p := by
  induction l with
  | nil => rfl
  | cons c cs ih =>
    by_cases h : p c = true
    · rw [List.takeWhile_cons_of_pos h]
      simpa using ih
    · simp [List.takeWhile_cons, h]

theorem drop_takeWhile_len (p : Char → Bool) (l : List Char) :
    l.drop (l.takeWhile p).length = l.dropWhile p := by
  induction l with
  | nil => rfl
  | cons c cs ih =>
    by_cases h : p c = true
    · rw [List.takeWhile_cons_of_pos h]
      simpa [List.dropWhile_cons, h] using ih
    · simp [List.takeWhile_cons, List.dropWhile_cons, h]

/-- `headNotSpace l` : the first character, if any, is not whitespace. -/
def headNotSpace : List Char → Bool
  | [] => true
  | c :: _ => !pySpace c

/-- Whitespace normal form: every whitespace character is a plain space and
no two adjacent whitespace characters occur. -/
def wsNormal : List Char → Bool
  | [] => true
  | c :: cs => (!pySpace c || (c = ' ' && headNotSpace cs)) && wsNormal cs

theorem headNotSpace_dropWhile (l : List Char) :
    headNotSpace (l.dropWhile pySpace) = true := by
  induction l with
  | nil => rfl
  | cons c cs ih =>
    by_cases h : pySpace c = true
    · simpa [List.dropWhile_cons, h] using ih
    · simp [List.dropWhile_cons, h, headNotSpace]

theorem wsPlus_tryMatch_pos (prev : Option Char) (c : Char) (cs : List Char)
    (h : pySpace c = true) :
    tryMatchAt false wsPlus prev (c :: cs) =
      some (c :: cs.takeWhile pySpace, cs.dropWhile pySpace, none) := by
  unfold tryMatchAt wsPlus
  simp only [reMatch, relemMatch_ws_fun]
  rw [List.takeWhile_cons_of_pos h]
  simp only [List.length_cons, List.range_succ_eq_map, List.map_cons, List.head?_cons,
    Nat.sub_zero]
  rw [List.take_succ_cons, take_takeWhile_len, List.drop_succ_cons, drop_takeWhile_len]

theorem wsPlus_tryMatch_neg (prev : Option Char) (c : Char) (cs : List Char)
    (h : pySpace c = false) :
    tryMatchAt false wsPlus prev (c :: cs) = none := by
  unfold tryMatchAt wsPlus
  simp only [reMatch, relemMatch_ws_fun]
  simp [List.takeWhile_cons, h]

theorem subAllGo_id_of_nomatch (ci : Bool) (p : RE) (r : List Char) :
    ∀ (fuel : Nat) (prev : Option Char) (s : List Char),
      existsMatchGo ci p fuel prev s = false → subAllGo ci p r fuel prev s = s := by
  intro fuel
  induction fuel with
  | zero => intro prev s _; rfl
  | succ n ih =>
    intro prev s hm
    cases s with
    | nil => rfl
    | cons c cs =>
      rw [existsMatchGo] at hm
      have h1 : tryMatchAt ci p prev (c :: cs) = none := by
        cases h : tryMatchAt ci p prev (c :: cs) with
        | none => rfl
        | some o => rw [h] at hm; simp at hm
      have h2 : existsMatchGo ci p n (some c) cs = false := by
        rw [h1] at hm
        simpa using hm
      simp only [subAllGo, h1]
      rw [ih _ _ h2]

theorem subStr_id_of_nomatch (ci : Bool) (p : RE) (s : String)
    (h : existsMatch ci p s.data = false) : subStr ci p s = s := by
  unfold subStr subAll
  rw [subAllGo_id_of_nomatch ci p [] _ _ _ h]

theorem subPatterns_id_of_nomatch (ci : Bool) (ps : List RE) (s : String)
    (h : ∀ p ∈ ps, existsMatch ci p s.data = false) : subPatterns ci ps s = s := by
  induction ps with
  | nil => rfl
  | cons q qs ih =>
    unfold subPatterns at ih ⊢
    simp only [List.foldl_cons, subStr_id_of_nomatch ci q s (h q (by simp))]
    exact ih fun p hp => h p (by simp [hp])

theorem subAllGo_ws_head (fuel : Nat) (prev : Option Char) (m : List Char)
    (hm : headNotSpace m = true) :
    headNotSpace (subAllGo false wsPlus [' '] fuel prev m) = true := by
  cases fuel with
  | zero => exact hm
  | succ n =>
    cases m with
    | nil => rfl
    | cons d ds =>
      have hd : pySpace d = false := by simpa [headNotSpace] using hm
      simp [subAllGo, wsPlus_tryMatch_neg _ _ _ hd, headNotSpace, hd]

theorem wsNormal_subAllGo_ws :
    ∀ (fuel : Nat) (prev : Option Char) (s : List Char), s.length ≤ fuel →
      wsNormal (subAllGo false wsPlus [' '] fuel prev s) = true := by
  intro fuel
  induction fuel with
  | zero =>
    intro prev s hl
    have : s = [] := List.eq_nil_of_length_eq_zero (Nat.le_zero.mp hl)
    subst this; rfl
  | succ n ih =>
    intro prev s hl
    cases s with
    | nil => rfl
    | cons c cs =>
      by_cases h : pySpace c = true
      · simp only [subAllGo, wsPlus_tryMatch_pos prev c cs h]
        have hlen : (cs.dropWhile pySpace).length ≤ n := by
          have := (List.dropWhile_sublist (l := cs) pySpace).length_le
          simp only [List.length_cons] at hl
          omega
        rw [List.singleton_append]
        generalize (cs.takeWhile pySpace).getLastD c = q
        have hrec := ih (some q) _ hlen
        have hhead := subAllGo_ws_head n (some q)
          (cs.dropWhile pySpace) (headNotSpace_dropWhile cs)
        simp [wsNormal, hrec, hhead]
      · have hb : pySpace c = false := by simpa using h
        simp only [subAllGo, wsPlus_tryMatch_neg prev c cs hb]
        have : wsNormal (subAllGo false wsPlus [' '] n (some c) cs) = true :=
          ih (some c) cs (by simp only [List.length_cons] at hl; omega)
        simp [wsNormal, hb, this]

theorem dropWhile_id_of_headNotSpace (l : List Char) (h : headNotSpace l = true) :
    l.dropWhile pySpace = l := by
  cases l with
  | nil => rfl
  | cons c cs =>
    have : pySpace c = false := by simpa [headNotSpace] using h
    simp [List.dropWhile_cons, this]

theorem wsNormal_tail (c : Char) (cs : List Char) (h : wsNormal (c :: cs) = true) :
    wsNormal cs = true := by
  simp only [wsNormal, Bool.and_eq_true] at h
  exact h.2

theorem wsNormal_head_space (c : Char) (cs : List Char)
    (h : wsNormal (c :: cs) = true) (hc : pySpace c = true) :
    c = ' ' ∧ headNotSpace cs = true := by
  simp only [wsNormal, Bool.and_eq_true] at h
  have h1 := h.1
  rw [hc] at h1
  simpa using h1

theorem subAllGo_id_of_wsNormal :
    ∀ (fuel : Nat) (prev : Option Char) (s : List Char), s.length ≤ fuel →
      wsNormal s = true → subAllGo false wsPlus [' '] fuel prev s = s := by
  intro fuel
  induction fuel with
  | zero =>
    intro prev s hl _
    have : s = [] := List.eq_nil_of_length_eq_zero (Nat.le_zero.mp hl)
    subst this; rfl
  | succ n ih =>
    intro prev s hl hws
    cases s with
    | nil => rfl
    | cons c cs =>
      have hwcs : wsNormal cs = true := wsNormal_tail c cs hws
      by_cases h : pySpace c = true
      · have hc := wsNormal_head_space c cs hws h
        have htw : cs.takeWhile pySpace = [] := by
          cases cs with
          | nil => rfl
          | cons d ds =>
            have : pySpace d = false := by simpa [headNotSpace] using hc.2
            simp [List.takeWhile_cons, this]
        have hdw : cs.dropWhile pySpace = cs := dropWhile_id_of_headNotSpace cs hc.2
        simp only [subAllGo, wsPlus_tryMatch_pos prev c cs h, htw, hdw]
        rw [show ([] : List Char).getLastD c = c from rfl]
        rw [List.singleton_append,
          ih (some c) cs (by simp only [List.length_cons] at hl; omega) hwcs]
        rw [hc.1]
      · have hb : pySpace c = false := by simpa using h
        simp only [subAllGo, wsPlus_tryMatch_neg prev c cs hb]
        rw [ih (some c) cs (by simp only [List.length_cons] at hl; omega) hwcs]

theorem wsNormal_dropWhile (l : List Char) (h : wsNormal l = true) :
    wsNormal (l.dropWhile pySpace) = true := by
  induction l with
  | nil => rfl
  | cons c cs ih =>
    by_cases hc : pySpace c = true
    · simpa [List.dropWhile_cons, hc] using ih (wsNormal_tail c cs h)
    · simpa [List.dropWhile_cons, hc] using h

theorem dropTrailing_head_shape (c : Char) (cs : List Char) :
    dropTrailing (c :: cs) = [] ∨ ∃ ds, dropTrailing (c :: cs) = c :: ds := by
  rw [dropTrailing]
  cases hd : dropTrailing cs with
  | nil =>
    by_cases h : pySpace c = true
    · left; simp [h]
    · right; exact ⟨[], by simp [h]⟩
  | cons d ds => right; exact ⟨d :: ds, rfl⟩

theorem wsNormal_dropTrailing (l : List Char) (h : wsNormal l = true) :
    wsNormal (dropTrailing l) = true := by
  induction l with
  | nil => rfl
  | cons c cs ih =>
    have hcs := ih (wsNormal_tail c cs h)
    rw [dropTrailing]
    cases hd : dropTrailing cs with
    | nil =>
      by_cases hc : pySpace c = true
      · simp [hc, wsNormal]
      · simp [hc, wsNormal, headNotSpace]
    | cons d ds =>
      rw [hd] at hcs
      rw [wsNormal, Bool.and_eq_true]
      refine ⟨?_, hcs⟩
      by_cases hc : pySpace c = true
      · have hch := wsNormal_head_space c cs h hc
        have hhead : headNotSpace (d :: ds) = true := by
          cases cs with
          | nil => simp [dropTrailing] at hd
          | cons e es =>
            rcases dropTrailing_head_shape e es with h0 | ⟨ds', h0⟩
            · rw [h0] at hd
              exact absurd hd (by simp)
            · rw [h0] at hd
              injection hd with h1 _
              subst h1
              simpa [headNotSpace] using hch.2
        simp [hc, hch.1, hhead]
      · simp [hc]

theorem headNotSpace_dropTrailing (l : List Char) (h : headNotSpace l = true) :
    headNotSpace (dropTrailing l) = true := by
  cases l with
  | nil => rfl
  | cons c cs =>
    rcases dropTrailing_head_shape c cs with h0 | ⟨ds, h0⟩
    · rw [h0]; rfl
    · rw [h0]
      simpa [headNotSpace] using h

theorem dropTrailing_idem (l : List Char) :
    dropTrailing (dropTrailing l) = dropTrailing l := by
  induction l with
  | nil => rfl
  | cons c cs ih =>
    rw [dropTrailing]
    cases hd : dropTrailing cs with
    | nil =>
      by_cases h : pySpace c = true
      · simp [h, dropTrailing]
      · simp [h, dropTrailing]
    | cons d ds =>
      rw [hd] at ih
      rw [dropTrailing, ih]

theorem pyStripL_idem (l : List Char) : pyStripL (pyStripL l) = pyStripL l := by
  unfold pyStripL
  rw [dropWhile_id_of_headNotSpace _ (headNotSpace_dropTrailing _ (headNotSpace_dropWhile l))]
  exact dropTrailing_idem _

theorem wsNormal_pyStripL (l : List Char) (h : wsNormal l = true) :
    wsNormal (pyStripL l) = true :=
  wsNormal_dropTrailing _ (wsNormal_dropWhile _ h)

theorem collapseWs_wsNormal (s : String) : wsNormal (collapseWs s).data = true :=
  wsNormal_subAllGo_ws _ _ _ (le_refl _)

theorem collapseWs_id_of_wsNormal (s : String) (h : wsNormal s.data = true) :
    collapseWs s = s := by
  unfold collapseWs subAll
  rw [subAllGo_id_of_wsNormal _ _ _ (le_refl _) h]

/-- C6 (amended): `clean_description` is idempotent on inputs whose
whitespace-collapsed text matches none of the unwanted patterns (both before
and after trimming) and whose cleaned text is within the 5000-character
cap. -/
theorem claim6_amended_thm (x : String)
    (h1 : ∀ p ∈ cleanPatterns, existsMatch true p (collapseWs x).data = false)
    (h2 : ∀ p ∈ cleanPatterns, existsMatch true p (cleanCore x).data = false)
    (h3 : (cleanCore x).length ≤ 5000) :
    cleanDescription (cleanDescription x) = cleanDescription x := by
  by_cases hx : x = ""
  · subst hx; rfl
  · have hcore : cleanCore x = pyStrip (collapseWs x) := by
      rw [cleanCore, if_neg hx, subPatterns_id_of_nomatch true cleanPatterns _ h1]
    have hcx : cleanDescription x = cleanCore x := by
      simp only [cleanDescription]
      rw [if_neg hx, if_neg (by omega)]
    rw [hcx]
    by_cases hy : cleanCore x = ""
    · rw [hy]; rfl
    · have hwsn : wsNormal (cleanCore x).data = true := by
        rw [hcore]
        exact wsNormal_pyStripL _ (collapseWs_wsNormal x)
      have hcoll : collapseWs (cleanCore x) = cleanCore x := collapseWs_id_of_wsNormal _ hwsn
      have hcore2 : cleanCore (cleanCore x) = cleanCore x := by
        rw [cleanCore, if_neg hy, hcoll, subPatterns_id_of_nomatch true cleanPatterns _ h2,
          hcore]
        unfold pyStrip
        rw [show (String.mk (pyStripL (collapseWs x).data)).data
            = pyStripL (collapseWs x).data from rfl]
        rw [pyStripL_idem]
      simp only [cleanDescription]
      rw [if_neg hy, hcore2, if_neg (by omega)]

/-- Witness for C6 (amended). -/
theorem claim6_amended_witness :
    (∀ p ∈ cleanPatterns, existsMatch true p (collapseWs "hello  world").data = false) ∧
    (cleanCore "hello  world").length ≤ 5000 ∧
    cleanDescription (cleanDescription "hello  world") = cleanDescription "hello  world" :=
  ⟨by decide, by decide,
   claim6_amended_thm "hello  world" (by decide) (by decide) (by decide)⟩

/-- C6 counterexample: removing `cookie` from `"a cookie b"` leaves a double
space, which a second application collapses, so `clean_description` is not
idempotent. -/
theorem claim6_counterexample :
    cleanDescription (cleanDescription "a cookie b") ≠ cleanDescription "a cookie b" := by
  decide

end JobScraper
